import Mathlib

/-!
Verification of the fit-dump tool (usedbytes/fit-tools) against its
natural-language specification.

The repository holds two variants of fit-dump.go (a current one and an
earlier revision).  Both are embedded below: `dumpField`, `dumpRecursive1`,
`getFileValue`, `run1`, `main1` model the first variant, and
`dumpRecursive2`, `getFileValue2`, `run2`, `main2` model the second.

Go reflect values are embedded as the inductive `Value`: every node carries
the result of its type's String method when the method exists (`Option
String`), since the Go code only ever probes for the method and calls it.
Output is modelled structurally: every printf in the source corresponds to
one constructor of `Line`, carrying the indent level and the printed data.
Floats are carried as their bit patterns, and the Go `==` comparison on them
is modelled by IEEE-754 equality (`f32Eq`, `f64Eq`): NaN compares unequal to
everything, and the two zeros compare equal.

External collaborators (the tormoder/fit decoding library and the Go
standard library functions utf8.DecodeRune, unicode.IsUpper,
strings.ToLower on one-byte strings, strings.HasSuffix) are modelled
faithfully where their behaviour matters to the claims; each model is
documented at its definition.
-/

namespace FitDump

/-- Scalar kinds that appear in the invalidValues sentinel table of
fit-dump.go: booleans, signed and unsigned integers of each width, the two
float widths (carried as raw bit patterns) and strings. -/
inductive Scalar where
  | bool (b : Bool)
  | i8 (i : Int)
  | i16 (i : Int)
  | i32 (i : Int)
  | i64 (i : Int)
  | u8 (n : Nat)
  | u16 (n : Nat)
  | u32 (n : Nat)
  | u64 (n : Nat)
  | f32 (bits : Nat)
  | f64 (bits : Nat)
  | str (s : String)

/-- Embedding of a Go reflect.Value as seen by fit-dump.  The first
argument of each constructor is the result of calling the value's String
method when the value's method set has one (none otherwise), matching the
MethodByName("String") probes in the source.  `invalidV` is the zero
reflect.Value produced by reflect.Indirect of a nil pointer.  `other`
covers the remaining kinds (plain int, map, chan, ...) that fall through to
the default printf branch. -/
inductive Value where
  | scalar (str? : Option String) (sc : Scalar)
  | struct (str? : Option String) (fields : List (String × Value))
  | ptr (str? : Option String) (p : Option Value)
  | slice (str? : Option String) (elems : List Value)
  | array (str? : Option String) (elems : List Value)
  | invalidV
  | other (str? : Option String) (rep : String)

/-- Result of probing a value for a String method, as val.MethodByName
("String") does in the source. -/
def Value.stringer : Value → Option String
  | .scalar s? _ => s?
  | .struct s? _ => s?
  | .ptr s? _ => s?
  | .slice s? _ => s?
  | .array s? _ => s?
  | .invalidV => none
  | .other s? _ => s?

/-- Data printed after "name: " on one output line.  Each constructor keeps
the printed value structurally: strR for the String-method text and for %v
of a string, intR/natR/boolR for %v of the integer kinds, f32R/f64R for %v
of a float (carried as bits; Go renders the value, e.g. NaN as "NaN"),
plusR for the %+v default branch. -/
inductive Rendered where
  | strR (s : String)
  | intR (i : Int)
  | natR (n : Nat)
  | boolR (b : Bool)
  | f32R (bits : Nat)
  | f64R (bits : Nat)
  | plusR (v : Value)

/-- One line of standard output.  fieldL is printIndent(level, "name: value");
headerL is printIndent(level, "name:"); trailerL is printIndent(level, "---");
sliceL is printIndent(level, "name (N elems):"); rawL is fmt.Println of an
error message in main. -/
inductive Line where
  | fieldL (indent : Nat) (name : String) (v : Rendered)
  | headerL (indent : Nat) (name : String)
  | trailerL (indent : Nat)
  | sliceL (indent : Nat) (name : String) (count : Nat)
  | rawL (s : String)

/-- Whether a float32 bit pattern denotes a NaN (exponent all ones,
nonzero mantissa). -/
def f32IsNaN (bits : Nat) : Bool :=
  if (bits / 0x800000) % 0x100 = 0xFF ∧ bits % 0x800000 ≠ 0 then true else false

/-- Whether a float32 bit pattern denotes positive or negative zero. -/
def f32IsZero (bits : Nat) : Bool :=
  if bits % 0x80000000 = 0 then true else false

/-- IEEE-754 equality on float32 values given by their bit patterns (below
2^32): NaN is unequal to everything, +0 equals -0, and otherwise equality
of values coincides with equality of bit patterns. -/
def f32Eq (a b : Nat) : Bool :=
  if f32IsNaN a || f32IsNaN b then false
  else if f32IsZero a && f32IsZero b then true
  else a == b

/-- Whether a float64 bit pattern denotes a NaN. -/
def f64IsNaN (bits : Nat) : Bool :=
  if (bits / 0x10000000000000) % 0x800 = 0x7FF ∧ bits % 0x10000000000000 ≠ 0 then true else false

/-- Whether a float64 bit pattern denotes positive or negative zero. -/
def f64IsZero (bits : Nat) : Bool :=
  if bits % 0x8000000000000000 = 0 then true else false

/-- IEEE-754 equality on float64 values given by their bit patterns
(below 2^64). -/
def f64Eq (a b : Nat) : Bool :=
  if f64IsNaN a || f64IsNaN b then false
  else if f64IsZero a && f64IsZero b then true
  else a == b

/-- The invalidValues sentinel table of fit-dump.go, applied to a scalar:
true when the per-kind predicate reports the value invalid.  The float rows
translate `float32(v.Float()) == math.Float32frombits(0xFFFFFFFF)` (and the
float64 analogue): an IEEE equality test against the all-bits-one pattern,
which is a NaN. -/
def invalidValues : Scalar → Bool
  | .bool b => b == false
  | .i8 i => i == 0x7F
  | .i16 i => i == 0x7FFF
  | .i32 i => i == 0x7FFFFFFF
  | .i64 i => i == 0x7FFFFFFFFFFFFFFF
  | .u8 n => n == 0xFF
  | .u16 n => n == 0xFFFF
  | .u32 n => n == 0xFFFFFFFF
  | .u64 n => n == 0xFFFFFFFFFFFFFFFF
  | .f32 bits => f32Eq bits 0xFFFFFFFF
  | .f64 bits => f64Eq bits 0xFFFFFFFFFFFFFFFF
  | .str s => s == ""

/-- What %v prints for a scalar, kept structurally. -/
def renderScalar : Scalar → Rendered
  | .bool b => .boolR b
  | .i8 i => .intR i
  | .i16 i => .intR i
  | .i32 i => .intR i
  | .i64 i => .intR i
  | .u8 n => .natR n
  | .u16 n => .natR n
  | .u32 n => .natR n
  | .u64 n => .natR n
  | .f32 bits => .f32R bits
  | .f64 bits => .f64R bits
  | .str s => .strR s

/-- UTF-8 encoding of one character, as Go strings store text. -/
def utf8Encode (c : Char) : List Nat :=
  let n := c.toNat
  if n < 0x80 then [n]
  else if n < 0x800 then [0xC0 + n / 0x40, 0x80 + n % 0x40]
  else if n < 0x10000 then [0xE0 + n / 0x1000, 0x80 + (n / 0x40) % 0x40, 0x80 + n % 0x40]
  else [0xF0 + n / 0x40000, 0x80 + (n / 0x1000) % 0x40, 0x80 + (n / 0x40) % 0x40, 0x80 + n % 0x40]

/-- The byte sequence of a string, as []byte(name) produces it in Go. -/
def strBytes (s : String) : List Nat :=
  s.data.flatMap utf8Encode

/-- Model of strings.HasSuffix of the Go standard library (external to
this repository): byte-level suffix test. -/
def hasSuffixGo (s suf : String) : Bool :=
  let bs := strBytes s
  let bsuf := strBytes suf
  if bsuf.length ≤ bs.length then bs.drop (bs.length - bsuf.length) == bsuf else false

/-- dumpField of fit-dump.go (both variants have the same body; the first
probes field.MethodByName, the second field.Type().MethodByName, which
coincide on the values dumped).  If the value has a String method, print
its text unless it ends in "Invalid"; else if the kind is in the
invalidValues table, suppress invalid values and print %v otherwise; else
print %+v. -/
def dumpField (field : Value) (name : String) (level : Nat) : List Line :=
  match field.stringer with
  | some str =>
      if hasSuffixGo str "Invalid" then [] else [Line.fieldL level name (Rendered.strR str)]
  | none =>
    match field with
    | Value.scalar _ sc =>
        if invalidValues sc then [] else [Line.fieldL level name (renderScalar sc)]
    | v => [Line.fieldL level name (Rendered.plusR v)]

/-- Whether a byte is a UTF-8 continuation byte (0x80..0xBF). -/
def isCont (b : Nat) : Bool :=
  if 0x80 ≤ b ∧ b ≤ 0xBF then true else false

/-- Accepted range of the second byte of a three-byte UTF-8 sequence whose
first byte is b0 (0xE0..0xEF): E0 narrows to A0..BF (no overlong forms),
ED narrows to 80..9F (no surrogates), the rest take any continuation
byte. -/
def cont3Ok (b0 b1 : Nat) : Bool :=
  if b0 = 0xE0 then (if 0xA0 ≤ b1 ∧ b1 ≤ 0xBF then true else false)
  else if b0 = 0xED then (if 0x80 ≤ b1 ∧ b1 ≤ 0x9F then true else false)
  else isCont b1

/-- Accepted range of the second byte of a four-byte UTF-8 sequence whose
first byte is b0 (0xF0..0xF4): F0 narrows to 90..BF, F4 narrows to 80..8F
(nothing above U+10FFFF), the rest take any continuation byte. -/
def cont4Ok (b0 b1 : Nat) : Bool :=
  if b0 = 0xF0 then (if 0x90 ≤ b1 ∧ b1 ≤ 0xBF then true else false)
  else if b0 = 0xF4 then (if 0x80 ≤ b1 ∧ b1 ≤ 0x8F then true else false)
  else isCont b1

/-- Model of utf8.DecodeRune of the Go standard library (external to this
repository): decode the first rune of a byte sequence, returning the rune
and the number of bytes consumed.  The empty input gives (RuneError, 0) and
an invalid encoding gives (RuneError, 1), where RuneError is U+FFFD. -/
def decodeRune : List Nat → Nat × Nat
  | [] => (0xFFFD, 0)
  | b0 :: rest =>
    if b0 < 0x80 then (b0, 1)
    else if 0xC2 ≤ b0 ∧ b0 ≤ 0xDF then
      match rest with
      | b1 :: _ =>
        if isCont b1 then ((b0 - 0xC0) * 0x40 + (b1 - 0x80), 2) else (0xFFFD, 1)
      | [] => (0xFFFD, 1)
    else if 0xE0 ≤ b0 ∧ b0 ≤ 0xEF then
      match rest with
      | b1 :: b2 :: _ =>
        if cont3Ok b0 b1 && isCont b2 then
          ((b0 - 0xE0) * 0x1000 + (b1 - 0x80) * 0x40 + (b2 - 0x80), 3)
        else (0xFFFD, 1)
      | _ => (0xFFFD, 1)
    else if 0xF0 ≤ b0 ∧ b0 ≤ 0xF4 then
      match rest with
      | b1 :: b2 :: b3 :: _ =>
        if cont4Ok b0 b1 && isCont b2 && isCont b3 then
          ((b0 - 0xF0) * 0x40000 + (b1 - 0x80) * 0x1000 + (b2 - 0x80) * 0x40 + (b3 - 0x80), 4)
        else (0xFFFD, 1)
      | _ => (0xFFFD, 1)
    else (0xFFFD, 1)

/-- Model of unicode.IsUpper of the Go standard library (external to this
repository), restricted to the ASCII and Latin-1 ranges; a true restriction
of the full Unicode predicate on those ranges, which is all the claims
need. -/
def unicodeIsUpper (r : Nat) : Bool :=
  if (65 ≤ r ∧ r ≤ 90) ∨ (0xC0 ≤ r ∧ r ≤ 0xDE ∧ r ≠ 0xD7) then true else false

/-- Model of unicode.IsLower of the Go standard library, restricted to the
ASCII and Latin-1 ranges (disjoint from unicodeIsUpper). -/
def unicodeIsLower (r : Nat) : Bool :=
  if (97 ≤ r ∧ r ≤ 122) ∨ (0xDF ≤ r ∧ r ≤ 0xFF ∧ r ≠ 0xF7) then true else false

/-- exported() of the first fit-dump.go variant, on the byte sequence of a
field name: decode the first rune; panic (modelled as none) when
utf8.DecodeRune reports RuneError with length at most one; otherwise
answer unicode.IsUpper of the rune. -/
def exported (bs : List Nat) : Option Bool :=
  let r := decodeRune bs
  if r.1 = 0xFFFD ∧ r.2 ≤ 1 then none
  else some (unicodeIsUpper r.1)

/-- exported() applied to a Lean string.  Lean strings are always valid
UTF-8, so the none (panic) case arises only for the empty name, which Go
struct field names never are; getD false makes the model total there. -/
def exportedStr (name : String) : Bool :=
  (exported (strBytes name)).getD false

/-- Specification-level predicate: the byte sequence begins with one valid
UTF-8 encoded rune. -/
def validFirstRune : List Nat → Bool
  | [] => false
  | b0 :: rest =>
    if b0 < 0x80 then true
    else if 0xC2 ≤ b0 ∧ b0 ≤ 0xDF then
      match rest with
      | b1 :: _ => isCont b1
      | [] => false
    else if 0xE0 ≤ b0 ∧ b0 ≤ 0xEF then
      match rest with
      | b1 :: b2 :: _ => cont3Ok b0 b1 && isCont b2
      | _ => false
    else if 0xF0 ≤ b0 ∧ b0 ≤ 0xF4 then
      match rest with
      | b1 :: b2 :: b3 :: _ => cont4Ok b0 b1 && isCont b2 && isCont b3
      | _ => false
    else false

/-- Number of bytes of a UTF-8 sequence led by the byte b0, as declared by
its high bits (only meaningful when the sequence is valid). -/
def runeLen (b0 : Nat) : Nat :=
  if b0 < 0x80 then 1
  else if 0xC2 ≤ b0 ∧ b0 ≤ 0xDF then 2
  else if 0xE0 ≤ b0 ∧ b0 ≤ 0xEF then 3
  else 4

/-- Specification-level predicate: the whole byte sequence is valid UTF-8,
i.e. it decomposes into a run of valid encoded runes. -/
def validUtf8 : List Nat → Bool
  | [] => true
  | b0 :: rest =>
      validFirstRune (b0 :: rest) && validUtf8 (rest.drop (runeLen b0 - 1))
termination_by bs => bs.length
decreasing_by simp; omega

/-- The field-skipping test of the second fit-dump.go variant:
len(name) > 0 && strings.ToLower(name[:1]) == name[:1], where name[:1] is
the first BYTE of the name.  strings.ToLower of a one-byte string equals
that string exactly when the byte is ASCII and not an uppercase letter
(a non-ASCII lone byte is invalid UTF-8 and maps to the three-byte
replacement character, hence differs); modelled from the Go standard
library, external to this repository. -/
def toLowerByteFixed (b : Nat) : Bool :=
  if b < 0x80 then (if 65 ≤ b ∧ b ≤ 90 then false else true) else false

/-- skip condition of the second variant on a field name. -/
def skipV2 (name : String) : Bool :=
  match strBytes name with
  | [] => false
  | b :: _ => toLowerByteFixed b

/-- reflect.Indirect: dereference a non-nil pointer, turn a nil pointer
into the zero Value, leave anything else unchanged. -/
def indirect : Value → Value
  | .ptr _ (some v) => v
  | .ptr _ none => .invalidV
  | v => v

/-- The element name "[i]" used for slice elements. -/
def idxName (i : Nat) : String :=
  "[" ++ toString i ++ "]"

mutual

/-- dumpRecursive of the first fit-dump.go variant: values with a String
method go straight to dumpField; otherwise structs print a header, their
exported fields at level+1 and a "---" trailer; nil pointers print
nothing and non-nil pointers are followed transparently; empty slices
print nothing and non-empty slices print a count header and their
elements; all remaining kinds go to dumpField. -/
def dumpRecursive1 (val : Value) (name : String) (level : Nat) : List Line :=
  match val.stringer with
  | some _ => dumpField val name level
  | none =>
    match val with
    | Value.struct _ fields =>
        Line.headerL level name :: (dumpFields1 fields level ++ [Line.trailerL level])
    | Value.ptr _ none => []
    | Value.ptr _ (some v) => dumpRecursive1 v name level
    | Value.slice _ [] => []
    | Value.slice _ (e :: es) =>
        Line.sliceL level name (e :: es).length :: dumpElems1 (e :: es) 0 (level + 1)
    | v => dumpField v name level

/-- The field loop of the struct case of the first variant: skip fields
whose name is not exported, dump the rest at level+1. -/
def dumpFields1 : List (String × Value) → Nat → List Line
  | [], _ => []
  | (fn, fv) :: rest, level =>
      (if exportedStr fn then dumpRecursive1 fv fn (level + 1) else []) ++ dumpFields1 rest level

/-- The element loop of the slice case of the first variant: each element
is dumped through reflect.Indirect under the name "[i]".  The match on the
element inlines `indirect` (see dumpElems1_cons). -/
def dumpElems1 : List Value → Nat → Nat → List Line
  | [], _, _ => []
  | e :: rest, i, level =>
      (match e with
       | Value.ptr _ (some v) => dumpRecursive1 v (idxName i) level
       | Value.ptr _ none => dumpRecursive1 Value.invalidV (idxName i) level
       | v => dumpRecursive1 v (idxName i) level)
      ++ dumpElems1 rest (i + 1) level

end

mutual

/-- dumpRecursive of the second fit-dump.go variant: the kind switch comes
first.  A struct with a String method prints "name: text" with NO check of
the "Invalid" suffix; a struct without one prints a header and its fields
(no trailer); pointers and slices behave as in the first variant; all
remaining kinds go to dumpField. -/
def dumpRecursive2 (val : Value) (name : String) (level : Nat) : List Line :=
  match val with
  | Value.struct (some str) _ => [Line.fieldL level name (Rendered.strR str)]
  | Value.struct none fields => Line.headerL level name :: dumpFields2 fields level
  | Value.ptr _ none => []
  | Value.ptr _ (some v) => dumpRecursive2 v name level
  | Value.slice _ [] => []
  | Value.slice _ (e :: es) =>
      Line.sliceL level name (e :: es).length :: dumpElems2 (e :: es) 0 (level + 1)
  | v => dumpField v name level

/-- The field loop of the struct case of the second variant, with its
byte-based skip test (marked FIXME: Unicode in the source). -/
def dumpFields2 : List (String × Value) → Nat → List Line
  | [], _ => []
  | (fn, fv) :: rest, level =>
      (if skipV2 fn then [] else dumpRecursive2 fv fn (level + 1)) ++ dumpFields2 rest level

/-- The element loop of the slice case of the second variant. -/
def dumpElems2 : List Value → Nat → Nat → List Line
  | [], _, _ => []
  | e :: rest, i, level =>
      (match e with
       | Value.ptr _ (some v) => dumpRecursive2 v (idxName i) level
       | Value.ptr _ none => dumpRecursive2 Value.invalidV (idxName i) level
       | v => dumpRecursive2 v (idxName i) level)
      ++ dumpElems2 rest (i + 1) level

end

/-- The file-type tag of a decoded fit.File: the seventeen categories the
source switches on, plus everything else (carried with its numeric
code). -/
inductive FileType where
  | activity
  | device
  | settings
  | sport
  | workout
  | course
  | schedules
  | weight
  | totals
  | goals
  | bloodPressure
  | monitoringA
  | activitySummary
  | monitoringDaily
  | monitoringB
  | segment
  | segmentList
  | unknown (code : Nat)
deriving DecidableEq

/-- The seventeen type-specific accessors of the fit library that the
selector can invoke. -/
inductive Accessor where
  | activity
  | device
  | settings
  | sport
  | workout
  | course
  | schedules
  | weight
  | totals
  | goals
  | bloodPressure
  | monitoringA
  | activitySummary
  | monitoringDaily
  | monitoringB
  | segment
  | segmentList
deriving DecidableEq

/-- Name of the struct type each accessor returns (body.Type().Name() in
the source); from the fit library, external to this repository. -/
def Accessor.typeName : Accessor → String
  | .activity => "ActivityFile"
  | .device => "DeviceFile"
  | .settings => "SettingsFile"
  | .sport => "SportFile"
  | .workout => "WorkoutFile"
  | .course => "CourseFile"
  | .schedules => "SchedulesFile"
  | .weight => "WeightFile"
  | .totals => "TotalsFile"
  | .goals => "GoalsFile"
  | .bloodPressure => "BloodPressureFile"
  | .monitoringA => "MonitoringAFile"
  | .activitySummary => "ActivitySummaryFile"
  | .monitoringDaily => "MonitoringDailyFile"
  | .monitoringB => "MonitoringBFile"
  | .segment => "SegmentFile"
  | .segmentList => "SegmentListFile"

/-- Rendering of a fit.FileType by its String method, as %v prints it in
the unknown-filetype error messages; from the fit library, external to
this repository.  Only the unknown branch is ever reached by the source. -/
def fileTypeString : FileType → String
  | .activity => "FileTypeActivity"
  | .device => "FileTypeDevice"
  | .settings => "FileTypeSettings"
  | .sport => "FileTypeSport"
  | .workout => "FileTypeWorkout"
  | .course => "FileTypeCourse"
  | .schedules => "FileTypeSchedules"
  | .weight => "FileTypeWeight"
  | .totals => "FileTypeTotals"
  | .goals => "FileTypeGoals"
  | .bloodPressure => "FileTypeBloodPressure"
  | .monitoringA => "FileTypeMonitoringA"
  | .activitySummary => "FileTypeActivitySummary"
  | .monitoringDaily => "FileTypeMonitoringDaily"
  | .monitoringB => "FileTypeMonitoringB"
  | .segment => "FileTypeSegment"
  | .segmentList => "FileTypeSegmentList"
  | .unknown code => "FileType(" ++ toString code ++ ")"

/-- A decoded fit.File as the source uses it: its type tag, the outcome of
each type-specific accessor (ok carries the dereferenced sub-structure,
error the accessor's failure), the reflected *fitf value the first variant
dumps, and the seven top-level pieces the second variant dumps. -/
structure FitFile where
  ftype : FileType
  accessor : Accessor → Except String Value
  topValue : Value
  header : Value
  crc : Value
  fileId : Value
  fileCreator : Value
  timestampCorrelation : Value
  unknownMessages : Value
  unknownFields : Value

/-- getFileValue of the first fit-dump.go variant.  Alongside the Except
result it returns the list of accessors invoked, in order, so that the
dispatch itself is visible to the theorems. -/
def getFileValue (f : FitFile) : List Accessor × Except String Value :=
  match f.ftype with
  | .activity => ([Accessor.activity], f.accessor Accessor.activity)
  | .device => ([Accessor.device], f.accessor Accessor.device)
  | .settings => ([Accessor.settings], f.accessor Accessor.settings)
  | .sport => ([Accessor.sport], f.accessor Accessor.sport)
  | .workout => ([Accessor.workout], f.accessor Accessor.workout)
  | .course => ([Accessor.course], f.accessor Accessor.course)
  | .schedules => ([Accessor.schedules], f.accessor Accessor.schedules)
  | .weight => ([Accessor.weight], f.accessor Accessor.weight)
  | .totals => ([Accessor.totals], f.accessor Accessor.totals)
  | .goals => ([Accessor.goals], f.accessor Accessor.goals)
  | .bloodPressure => ([Accessor.bloodPressure], f.accessor Accessor.bloodPressure)
  | .monitoringA => ([Accessor.monitoringA], f.accessor Accessor.monitoringA)
  | .activitySummary => ([Accessor.activitySummary], f.accessor Accessor.activitySummary)
  | .monitoringDaily => ([Accessor.monitoringDaily], f.accessor Accessor.monitoringDaily)
  | .monitoringB => ([Accessor.monitoringB], f.accessor Accessor.monitoringB)
  | .segment => ([Accessor.segment], f.accessor Accessor.segment)
  | .segmentList => ([Accessor.segmentList], f.accessor Accessor.segmentList)
  | .unknown code =>
      ([], Except.error ("unknown filetype '" ++ fileTypeString (FileType.unknown code) ++ "'"))

/-- Error wrapping of the second variant: fmt.Errorf("get file failed: %v",
err) applied to an accessor failure. -/
def gfWrap : Except String Value → Except String Value
  | Except.error e => Except.error ("get file failed: " ++ e)
  | Except.ok v => Except.ok v

/-- The inline type switch of run() in the second fit-dump.go variant,
factored out with the same invoked-accessor trace as getFileValue. -/
def getFileValue2 (f : FitFile) : List Accessor × Except String Value :=
  match f.ftype with
  | .activity => ([Accessor.activity], gfWrap (f.accessor Accessor.activity))
  | .device => ([Accessor.device], gfWrap (f.accessor Accessor.device))
  | .settings => ([Accessor.settings], gfWrap (f.accessor Accessor.settings))
  | .sport => ([Accessor.sport], gfWrap (f.accessor Accessor.sport))
  | .workout => ([Accessor.workout], gfWrap (f.accessor Accessor.workout))
  | .course => ([Accessor.course], gfWrap (f.accessor Accessor.course))
  | .schedules => ([Accessor.schedules], gfWrap (f.accessor Accessor.schedules))
  | .weight => ([Accessor.weight], gfWrap (f.accessor Accessor.weight))
  | .totals => ([Accessor.totals], gfWrap (f.accessor Accessor.totals))
  | .goals => ([Accessor.goals], gfWrap (f.accessor Accessor.goals))
  | .bloodPressure => ([Accessor.bloodPressure], gfWrap (f.accessor Accessor.bloodPressure))
  | .monitoringA => ([Accessor.monitoringA], gfWrap (f.accessor Accessor.monitoringA))
  | .activitySummary => ([Accessor.activitySummary], gfWrap (f.accessor Accessor.activitySummary))
  | .monitoringDaily => ([Accessor.monitoringDaily], gfWrap (f.accessor Accessor.monitoringDaily))
  | .monitoringB => ([Accessor.monitoringB], gfWrap (f.accessor Accessor.monitoringB))
  | .segment => ([Accessor.segment], gfWrap (f.accessor Accessor.segment))
  | .segmentList => ([Accessor.segmentList], gfWrap (f.accessor Accessor.segmentList))
  | .unknown code =>
      ([], Except.error ("get file failed: Unknown filetype '"
            ++ fileTypeString (FileType.unknown code) ++ "'"))

/-- Specification-level dispatch table: the accessor the spec says each of
the seventeen known file-type tags selects (none for an unknown tag), to
be compared with what getFileValue actually does. -/
def tagAccessor : FileType → Option Accessor
  | .activity => some Accessor.activity
  | .device => some Accessor.device
  | .settings => some Accessor.settings
  | .sport => some Accessor.sport
  | .workout => some Accessor.workout
  | .course => some Accessor.course
  | .schedules => some Accessor.schedules
  | .weight => some Accessor.weight
  | .totals => some Accessor.totals
  | .goals => some Accessor.goals
  | .bloodPressure => some Accessor.bloodPressure
  | .monitoringA => some Accessor.monitoringA
  | .activitySummary => some Accessor.activitySummary
  | .monitoringDaily => some Accessor.monitoringDaily
  | .monitoringB => some Accessor.monitoringB
  | .segment => some Accessor.segment
  | .segmentList => some Accessor.segmentList
  | .unknown _ => none

/-- The seventeen known file-type tags. -/
def knownTags : List FileType :=
  [FileType.activity, FileType.device, FileType.settings, FileType.sport,
   FileType.workout, FileType.course, FileType.schedules, FileType.weight,
   FileType.totals, FileType.goals, FileType.bloodPressure,
   FileType.monitoringA, FileType.activitySummary, FileType.monitoringDaily,
   FileType.monitoringB, FileType.segment, FileType.segmentList]

/-- The environment a run of the tool sees: the positional arguments after
flag parsing, the outcome of os.Open on the named file, and the outcome of
fit.Decode on its contents. -/
structure Env where
  args : List String
  openRes : Except String Unit
  decodeRes : Except String FitFile

/-- Outcome of run(): whether os.Open was invoked, the lines printed to
standard output so far, and the returned error if any. -/
structure RunResult where
  opened : Bool
  output : List Line
  err : Option String

/-- Name under which the first variant dumps the selected sub-structure:
body.Type().Name(), recovered here from the dispatched accessor. -/
def bodyName (f : FitFile) : String :=
  match (getFileValue f).1.head? with
  | some a => Accessor.typeName a
  | none => ""

/-- run() of the first fit-dump.go variant: arity check, os.Open,
fit.Decode, dump of the reflected *fitf under the file path as name, then
getFileValue and dump of the selected body under its type name. -/
def run1 (env : Env) : RunResult :=
  if env.args.length != 1 then
    { opened := false, output := [], err := some "Expected a single argument: FILE" }
  else
    match env.openRes with
    | Except.error e => { opened := true, output := [], err := some e }
    | Except.ok _ =>
      match env.decodeRes with
      | Except.error e => { opened := true, output := [], err := some e }
      | Except.ok fitf =>
        let out1 := dumpRecursive1 fitf.topValue (env.args.headD "") 0
        match (getFileValue fitf).2 with
        | Except.error e => { opened := true, output := out1, err := some e }
        | Except.ok body =>
            { opened := true,
              output := out1 ++ dumpRecursive1 body (bodyName fitf) 0,
              err := none }

/-- main() of the first variant: run, then print the error to standard
output and exit 1, or exit 0.  Result is the exit code and everything
printed to standard output (the program never writes to standard
error). -/
def main1 (env : Env) : Nat × List Line :=
  match (run1 env).err with
  | some e => (1, (run1 env).output ++ [Line.rawL e])
  | none => (0, (run1 env).output)

/-- The seven top-level dumps the second variant prints before selecting
the type-specific body. -/
def metadataDump2 (fitf : FitFile) : List Line :=
  dumpRecursive2 fitf.header "Header" 0
  ++ dumpRecursive2 fitf.crc "File CRC" 0
  ++ dumpRecursive2 fitf.fileId "FileId" 0
  ++ dumpRecursive2 fitf.fileCreator "FileCreator" 0
  ++ dumpRecursive2 fitf.timestampCorrelation "TimestampCorrelation" 0
  ++ dumpRecursive2 fitf.unknownMessages "UnknownMessages" 0
  ++ dumpRecursive2 fitf.unknownFields "UnknownFields" 0

/-- Name under which the second variant dumps the selected body. -/
def bodyName2 (f : FitFile) : String :=
  match (getFileValue2 f).1.head? with
  | some a => Accessor.typeName a
  | none => ""

/-- run() of the second fit-dump.go variant: arity check, os.Open,
fit.Decode, the seven top-level dumps, then the inline type switch and the
dump of the selected body. -/
def run2 (env : Env) : RunResult :=
  if env.args.length != 1 then
    { opened := false, output := [], err := some "Expected a single argument: FILE" }
  else
    match env.openRes with
    | Except.error e => { opened := true, output := [], err := some e }
    | Except.ok _ =>
      match env.decodeRes with
      | Except.error e => { opened := true, output := [], err := some e }
      | Except.ok fitf =>
        let out1 := metadataDump2 fitf
        match (getFileValue2 fitf).2 with
        | Except.error e => { opened := true, output := out1, err := some e }
        | Except.ok body =>
            { opened := true,
              output := out1 ++ dumpRecursive2 body (bodyName2 fitf) 0,
              err := none }

/-- main() of the second variant. -/
def main2 (env : Env) : Nat × List Line :=
  match (run2 env).err with
  | some e => (1, (run2 env).output ++ [Line.rawL e])
  | none => (0, (run2 env).output)

/-- A sample sub-structure returned by an accessor. -/
def sampleBody : Value := Value.scalar none (Scalar.u8 1)

/-- A sample metadata value holding the uint8 sentinel (dumps nothing). -/
def mv : Value := Value.scalar none (Scalar.u8 0xFF)

/-- A sample decoded file of activity type. -/
def activityFitFile : FitFile :=
  { ftype := FileType.activity, accessor := fun _ => Except.ok sampleBody,
    topValue := Value.scalar none (Scalar.str "top"), header := mv, crc := mv,
    fileId := mv, fileCreator := mv, timestampCorrelation := mv,
    unknownMessages := mv, unknownFields := mv }

/-- A sample decoded file carrying an unknown type tag (code 7). -/
def unknownFitFile : FitFile :=
  { ftype := FileType.unknown 7, accessor := fun _ => Except.error "no accessor",
    topValue := Value.scalar none (Scalar.str "top"), header := mv, crc := mv,
    fileId := mv, fileCreator := mv, timestampCorrelation := mv,
    unknownMessages := mv, unknownFields := mv }

/-- A sample environment with no positional argument. -/
def envNoArgs : Env :=
  { args := [], openRes := Except.ok (), decodeRes := Except.error "unused" }

/-- A sample environment that opens and decodes fine but yields a file of
unknown type. -/
def envUnknown : Env :=
  { args := ["f.fit"], openRes := Except.ok (), decodeRes := Except.ok unknownFitFile }

/-! ## Theorems -/

/-- The element loop of the first variant processes the head element
through reflect.Indirect, exactly as the source writes it. -/
theorem dumpElems1_cons (e : Value) (rest : List Value) (i lvl : Nat) :
    dumpElems1 (e :: rest) i lvl =
      dumpRecursive1 (indirect e) (idxName i) lvl ++ dumpElems1 rest (i + 1) lvl := by
  rcases e with ⟨s?, sc⟩ | ⟨s?, fields⟩ | ⟨s?, _ | v⟩ | ⟨s?, es⟩ | ⟨s?, es⟩ | _ | ⟨s?, r⟩ <;>
    simp [dumpElems1, indirect]

/-- The element loop of the second variant processes the head element
through reflect.Indirect. -/
theorem dumpElems2_cons (e : Value) (rest : List Value) (i lvl : Nat) :
    dumpElems2 (e :: rest) i lvl =
      dumpRecursive2 (indirect e) (idxName i) lvl ++ dumpElems2 rest (i + 1) lvl := by
  rcases e with ⟨s?, sc⟩ | ⟨s?, fields⟩ | ⟨s?, _ | v⟩ | ⟨s?, es⟩ | ⟨s?, es⟩ | _ | ⟨s?, r⟩ <;>
    simp [dumpElems2, indirect]

/-- The element loop of the first variant dumps the i-th element (counted
from the starting index) under the name "[i]". -/
theorem dumpElems1_eq (es : List Value) : ∀ i lvl : Nat,
    dumpElems1 es i lvl =
      (List.enumFrom i es).flatMap
        (fun p => dumpRecursive1 (indirect p.2) (idxName p.1) lvl) := by
  induction es with
  | nil => intro i lvl; simp [dumpElems1]
  | cons e rest ih =>
    intro i lvl
    rw [dumpElems1_cons, ih]
    simp [List.enumFrom]

/-- The element loop of the second variant dumps the i-th element under
the name "[i]". -/
theorem dumpElems2_eq (es : List Value) : ∀ i lvl : Nat,
    dumpElems2 es i lvl =
      (List.enumFrom i es).flatMap
        (fun p => dumpRecursive2 (indirect p.2) (idxName p.1) lvl) := by
  induction es with
  | nil => intro i lvl; simp [dumpElems2]
  | cons e rest ih =>
    intro i lvl
    rw [dumpElems2_cons, ih]
    simp [List.enumFrom]

/-- exported() panics exactly on the empty name and on a name whose first
byte sequence is not a valid UTF-8 encoding. -/
theorem exported_none_iff (bs : List Nat) :
    exported bs = none ↔ (bs = [] ∨ validFirstRune bs = false) := by
  cases bs with
  | nil => simp [exported, decodeRune]
  | cons b0 rest =>
    simp only [exported, decodeRune, validFirstRune, List.cons_ne_nil, false_or]
    by_cases h1 : b0 < 0x80
    · have hb : b0 ≠ 0xFFFD := by omega
      simp [h1, hb]
    · by_cases h2 : 0xC2 ≤ b0 ∧ b0 ≤ 0xDF
      · cases rest with
        | nil => simp [h1, h2]
        | cons b1 r =>
          by_cases hc : isCont b1 = true
          · simp [h1, h2, hc]
          · simp [h1, h2, hc]
      · by_cases h3 : 0xE0 ≤ b0 ∧ b0 ≤ 0xEF
        · rcases rest with _ | ⟨b1, _ | ⟨b2, r⟩⟩
          · simp [h1, h2, h3]
          · simp [h1, h2, h3]
          · by_cases hc : (cont3Ok b0 b1 && isCont b2) = true
            · simp [h1, h2, h3, hc]
            · simp [h1, h2, h3, hc]
        · by_cases h4 : 0xF0 ≤ b0 ∧ b0 ≤ 0xF4
          · rcases rest with _ | ⟨b1, _ | ⟨b2, _ | ⟨b3, r⟩⟩⟩
            · simp [h1, h2, h3, h4]
            · simp [h1, h2, h3, h4]
            · simp [h1, h2, h3, h4]
            · by_cases hc : (cont4Ok b0 b1 && isCont b2 && isCont b3) = true
              · simp [h1, h2, h3, h4, hc]
              · simp [h1, h2, h3, h4, hc]
          · simp [h1, h2, h3, h4]

/-- A nonempty valid UTF-8 byte sequence begins with a valid rune. -/
theorem validUtf8_first (bs : List Nat) (hne : bs ≠ []) (h : validUtf8 bs = true) :
    validFirstRune bs = true := by
  cases bs with
  | nil => exact absurd rfl hne
  | cons b0 rest =>
    simp only [validUtf8, Bool.and_eq_true] at h
    exact h.1

/-- The modelled uppercase and lowercase tables are disjoint. -/
theorem upper_lower_disjoint (r : Nat) (h : unicodeIsLower r = true) :
    unicodeIsUpper r = false := by
  by_cases hu : (65 ≤ r ∧ r ≤ 90) ∨ (0xC0 ≤ r ∧ r ≤ 0xDE ∧ r ≠ 0xD7)
  · by_cases hl : (97 ≤ r ∧ r ≤ 122) ∨ (0xDF ≤ r ∧ r ≤ 0xFF ∧ r ≠ 0xF7)
    · omega
    · simp [unicodeIsLower, hl] at h
  · simp [unicodeIsUpper, hu]

/-- In the first variant a struct field whose name starts with a lowercase
letter is skipped: it is neither visited nor printed. -/
theorem dumpFields1_skips_lowercase (fn : String) (fv : Value)
    (rest : List (String × Value)) (lvl : Nat)
    (h : unicodeIsLower (decodeRune (strBytes fn)).1 = true) :
    dumpFields1 ((fn, fv) :: rest) lvl = dumpFields1 rest lvl := by
  have hup : exportedStr fn = false := by
    unfold exportedStr exported
    dsimp only
    split
    · rfl
    · simpa using upper_lower_disjoint _ h
  simp [dumpFields1, hup]

/-- In the first variant a struct field whose name starts with an
uppercase letter is visited: its recursive dump is emitted at level+1. -/
theorem dumpFields1_visits_uppercase (fn : String) (fv : Value)
    (rest : List (String × Value)) (lvl : Nat)
    (h : unicodeIsUpper (decodeRune (strBytes fn)).1 = true) :
    dumpFields1 ((fn, fv) :: rest) lvl =
      dumpRecursive1 fv fn (lvl + 1) ++ dumpFields1 rest lvl := by
  have hup : exportedStr fn = true := by
    unfold exportedStr exported
    dsimp only
    split
    · next hc =>
        exfalso
        rw [hc.1] at h
        exact absurd h (by decide)
    · simpa using h
  simp [dumpFields1, hup]


/-- The non-float rows of the sentinel table behave as the specification
table says: bool false, the per-width extreme integers and the empty
string are suppressed by dumpField. -/
theorem dumpField_sentinel_suppressed (name : String) (lvl : Nat) :
    dumpField (Value.scalar none (Scalar.bool false)) name lvl = [] ∧
    dumpField (Value.scalar none (Scalar.i8 0x7F)) name lvl = [] ∧
    dumpField (Value.scalar none (Scalar.i16 0x7FFF)) name lvl = [] ∧
    dumpField (Value.scalar none (Scalar.i32 0x7FFFFFFF)) name lvl = [] ∧
    dumpField (Value.scalar none (Scalar.i64 0x7FFFFFFFFFFFFFFF)) name lvl = [] ∧
    dumpField (Value.scalar none (Scalar.u8 0xFF)) name lvl = [] ∧
    dumpField (Value.scalar none (Scalar.u16 0xFFFF)) name lvl = [] ∧
    dumpField (Value.scalar none (Scalar.u32 0xFFFFFFFF)) name lvl = [] ∧
    dumpField (Value.scalar none (Scalar.u64 0xFFFFFFFFFFFFFFFF)) name lvl = [] ∧
    dumpField (Value.scalar none (Scalar.str "")) name lvl = [] := by
  refine ⟨?_, ?_, ?_, ?_, ?_, ?_, ?_, ?_, ?_, ?_⟩ <;> rfl

/-- A non-sentinel scalar without a String method is printed by dumpField
as exactly one line carrying the literal value. -/
theorem dumpField_prints_nonsentinel (sc : Scalar) (name : String) (lvl : Nat)
    (h : invalidValues sc = false) :
    dumpField (Value.scalar none sc) name lvl = [Line.fieldL lvl name (renderScalar sc)] := by
  simp [dumpField, Value.stringer, h]

/-- C1: the float32/float64 rows of the sentinel table never fire.  The
code compares the field with math.Float32frombits(0xFFFFFFFF) (resp. the
float64 analogue) using Go ==, i.e. IEEE equality, and that bit pattern is
a NaN, which IEEE equality reports unequal to everything -- including the
sentinel value itself.  So a float field holding the documented sentinel
bit pattern is printed, where the claim requires it to be suppressed; both
predicates are in fact constantly false. -/
theorem c1_float_sentinel_printed :
    invalidValues (Scalar.f32 0xFFFFFFFF) = false ∧
    invalidValues (Scalar.f64 0xFFFFFFFFFFFFFFFF) = false ∧
    dumpField (Value.scalar none (Scalar.f32 0xFFFFFFFF)) "Altitude" 0 =
      [Line.fieldL 0 "Altitude" (Rendered.f32R 0xFFFFFFFF)] ∧
    dumpField (Value.scalar none (Scalar.f64 0xFFFFFFFFFFFFFFFF)) "Grade" 0 =
      [Line.fieldL 0 "Grade" (Rendered.f64R 0xFFFFFFFFFFFFFFFF)] ∧
    (∀ bits : Nat, invalidValues (Scalar.f32 bits) = false) ∧
    (∀ bits : Nat, invalidValues (Scalar.f64 bits) = false) := by
  refine ⟨rfl, rfl, rfl, rfl, ?_, ?_⟩
  · intro bits
    simp [invalidValues, f32Eq, show f32IsNaN 0xFFFFFFFF = true from by decide]
  · intro bits
    simp [invalidValues, f64Eq, show f64IsNaN 0xFFFFFFFFFFFFFFFF = true from by decide]

/-- When a value's method set has a String method, the first variant's
dumpRecursive hands the value straight to dumpField. -/
theorem dumpRecursive1_stringer (v : Value) (s : String) (h : v.stringer = some s)
    (name : String) (lvl : Nat) : dumpRecursive1 v name lvl = dumpField v name lvl := by
  rcases v with ⟨s?, sc⟩ | ⟨s?, fields⟩ | ⟨s?, _ | w⟩ | ⟨s?, _ | ⟨e, es⟩⟩ | ⟨s?, es⟩ | _ | ⟨s?, r⟩ <;>
    simp [Value.stringer] at h <;> subst h <;>
    simp [dumpRecursive1, Value.stringer]

/-- dumpField suppresses any value whose String method renders text ending
in "Invalid". -/
theorem dumpField_invalid_suppressed (v : Value) (s : String) (h : v.stringer = some s)
    (hs : hasSuffixGo s "Invalid" = true) (name : String) (lvl : Nat) :
    dumpField v name lvl = [] := by
  rcases v with ⟨s?, sc⟩ | ⟨s?, fields⟩ | ⟨s?, p⟩ | ⟨s?, es⟩ | ⟨s?, es⟩ | _ | ⟨s?, r⟩ <;>
    simp [Value.stringer] at h <;> subst h <;>
    simp [dumpField, Value.stringer, hs]

/-- C2 counterexample: in the second variant, a struct whose String method
renders text ending in "Invalid" is printed anyway (one line), where the
claim requires zero output lines for every such value. -/
theorem c2_counterexample :
    hasSuffixGo "FooInvalid" "Invalid" = true ∧
    dumpRecursive2 (Value.struct (some "FooInvalid") []) "LocalDateTime" 0 =
      [Line.fieldL 0 "LocalDateTime" (Rendered.strR "FooInvalid")] :=
  ⟨by decide, by simp [dumpRecursive2]⟩

/-- C2 (amended): the "Invalid"-suffix suppression is universal in the
first variant and holds in dumpField (hence for the non-struct,
non-pointer, non-slice kinds of the second variant), but in the second
variant a struct with a String method is printed without the suffix check,
and pointers and slices follow the structural rules without consulting the
method. -/
theorem c2_amended :
    (∀ (v : Value) (name : String) (lvl : Nat) (s : String),
        v.stringer = some s → hasSuffixGo s "Invalid" = true →
        dumpRecursive1 v name lvl = []) ∧
    (∀ (v : Value) (name : String) (lvl : Nat) (s : String),
        v.stringer = some s → hasSuffixGo s "Invalid" = true →
        dumpField v name lvl = []) ∧
    (∀ (s : String) (fields : List (String × Value)) (name : String) (lvl : Nat),
        dumpRecursive2 (Value.struct (some s) fields) name lvl =
          [Line.fieldL lvl name (Rendered.strR s)]) ∧
    (∀ (s : String) (sc : Scalar) (name : String) (lvl : Nat),
        hasSuffixGo s "Invalid" = true →
        dumpRecursive2 (Value.scalar (some s) sc) name lvl = []) := by
  refine ⟨?_, ?_, ?_, ?_⟩
  · intro v name lvl s h hs
    rw [dumpRecursive1_stringer v s h]
    exact dumpField_invalid_suppressed v s h hs name lvl
  · intro v name lvl s h hs
    exact dumpField_invalid_suppressed v s h hs name lvl
  · intro s fields name lvl
    simp [dumpRecursive2]
  · intro s sc name lvl hs
    simp [dumpRecursive2, dumpField, Value.stringer, hs]

/-- C2 amended witness at concrete inputs. -/
theorem c2_amended_witness :
    dumpRecursive1 (Value.scalar (some "TimestampInvalid") (Scalar.u8 3)) "T" 0 = [] ∧
    dumpField (Value.scalar (some "TimestampInvalid") (Scalar.u8 3)) "T" 0 = [] ∧
    dumpRecursive2 (Value.struct (some "FitBaseTypeInvalid") []) "B" 0 =
      [Line.fieldL 0 "B" (Rendered.strR "FitBaseTypeInvalid")] ∧
    dumpRecursive2 (Value.scalar (some "TimestampInvalid") (Scalar.u8 3)) "T" 0 = [] :=
  ⟨c2_amended.1 _ "T" 0 "TimestampInvalid" rfl (by decide),
   c2_amended.2.1 _ "T" 0 "TimestampInvalid" rfl (by decide),
   c2_amended.2.2.1 "FitBaseTypeInvalid" [] "B" 0,
   c2_amended.2.2.2 "TimestampInvalid" (Scalar.u8 3) "T" 0 (by decide)⟩

/-- C5 counterexample: in the first variant a non-nil pointer whose own
method set has a String method (a pointer-receiver String) is rendered by
that method, not transparently like its pointee, so the two outputs
differ character for character. -/
theorem c5_counterexample :
    dumpRecursive1 (Value.ptr (some "cur") (some (Value.struct none []))) "Pt" 0 =
      [Line.fieldL 0 "Pt" (Rendered.strR "cur")] ∧
    dumpRecursive1 (Value.struct none []) "Pt" 0 =
      [Line.headerL 0 "Pt", Line.trailerL 0] := by
  constructor
  · simp [dumpRecursive1, Value.stringer, dumpField,
      show hasSuffixGo "cur" "Invalid" = false from by decide]
  · simp [dumpRecursive1, Value.stringer, dumpFields1]

/-- C5 (amended): for pointer values without a String method in the first
variant -- and for all pointer values in the second variant, whose kind
dispatch precedes the method probe -- a nil pointer emits nothing and a
non-nil pointer produces exactly the output of dumping the pointed-to
value at the same indent and name. -/
theorem c5_amended :
    (∀ (name : String) (lvl : Nat), dumpRecursive1 (Value.ptr none none) name lvl = []) ∧
    (∀ (v : Value) (name : String) (lvl : Nat),
        dumpRecursive1 (Value.ptr none (some v)) name lvl = dumpRecursive1 v name lvl) ∧
    (∀ (s? : Option String) (name : String) (lvl : Nat),
        dumpRecursive2 (Value.ptr s? none) name lvl = []) ∧
    (∀ (s? : Option String) (v : Value) (name : String) (lvl : Nat),
        dumpRecursive2 (Value.ptr s? (some v)) name lvl = dumpRecursive2 v name lvl) := by
  refine ⟨?_, ?_, ?_, ?_⟩
  · intro name lvl; simp [dumpRecursive1, Value.stringer]
  · intro v name lvl; simp [dumpRecursive1, Value.stringer]
  · intro s? name lvl; simp [dumpRecursive2]
  · intro s? v name lvl; simp [dumpRecursive2]

/-- C6 counterexample: an array-kind field is not handled by the sequence
case (the switch lists only reflect.Slice), so an EMPTY array falls to the
default branch and prints one "name: %+v" line, where the claim requires
zero output lines for an empty sequence. -/
theorem c6_counterexample :
    dumpRecursive1 (Value.array none []) "Values" 0 =
      [Line.fieldL 0 "Values" (Rendered.plusR (Value.array none []))] := by
  simp [dumpRecursive1, Value.stringer, dumpField]

/-- C6 (amended): for slice-kind fields the claim holds -- without a
String method in the first variant, unconditionally in the second: an
empty slice emits nothing, and a non-empty slice of length N emits the
header "name (N elems):" followed by the N elements, each taken through
reflect.Indirect and dumped recursively under the zero-based name "[i]"
at indent+1.  Array-kind fields are not special-cased: they print through
the default scalar path as a single "name: %+v" line regardless of
length. -/
theorem c6_amended :
    (∀ (name : String) (lvl : Nat), dumpRecursive1 (Value.slice none []) name lvl = []) ∧
    (∀ (s? : Option String) (name : String) (lvl : Nat),
        dumpRecursive2 (Value.slice s? []) name lvl = []) ∧
    (∀ (e : Value) (es : List Value) (name : String) (lvl : Nat),
        dumpRecursive1 (Value.slice none (e :: es)) name lvl =
          Line.sliceL lvl name (e :: es).length ::
            (List.enumFrom 0 (e :: es)).flatMap
              (fun p => dumpRecursive1 (indirect p.2) (idxName p.1) (lvl + 1))) ∧
    (∀ (s? : Option String) (e : Value) (es : List Value) (name : String) (lvl : Nat),
        dumpRecursive2 (Value.slice s? (e :: es)) name lvl =
          Line.sliceL lvl name (e :: es).length ::
            (List.enumFrom 0 (e :: es)).flatMap
              (fun p => dumpRecursive2 (indirect p.2) (idxName p.1) (lvl + 1))) ∧
    (∀ (es : List Value) (name : String) (lvl : Nat),
        dumpRecursive1 (Value.array none es) name lvl =
          [Line.fieldL lvl name (Rendered.plusR (Value.array none es))]) ∧
    (∀ (es : List Value) (name : String) (lvl : Nat),
        dumpRecursive2 (Value.array none es) name lvl =
          [Line.fieldL lvl name (Rendered.plusR (Value.array none es))]) := by
  refine ⟨?_, ?_, ?_, ?_, ?_, ?_⟩
  · intro name lvl; simp [dumpRecursive1, Value.stringer]
  · intro s? name lvl; simp [dumpRecursive2]
  · intro e es name lvl
    rw [← dumpElems1_eq]
    simp [dumpRecursive1, Value.stringer]
  · intro s? e es name lvl
    rw [← dumpElems2_eq]
    simp [dumpRecursive2]
  · intro es name lvl; simp [dumpRecursive1, Value.stringer, dumpField]
  · intro es name lvl; simp [dumpRecursive2, dumpField, Value.stringer]

/-- C7: the second variant's byte-based visibility test (marked
"FIXME: Unicode." in the source) fails for non-ASCII names: a field named
with a leading lowercase a-umlaut (first byte 0xC3) is visited and printed
by the second variant, while the first variant's exported() correctly
skips it. -/
theorem c7_unicode_lowercase_field_printed :
    unicodeIsLower (decodeRune (strBytes "äx")).1 = true ∧
    dumpRecursive2 (Value.struct none [("äx", Value.scalar none (Scalar.u8 5))]) "S" 0 =
      [Line.headerL 0 "S", Line.fieldL 1 "äx" (Rendered.natR 5)] ∧
    dumpRecursive1 (Value.struct none [("äx", Value.scalar none (Scalar.u8 5))]) "S" 0 =
      [Line.headerL 0 "S", Line.trailerL 0] := by
  refine ⟨by decide, ?_, ?_⟩
  · simp [dumpRecursive2, dumpFields2, dumpField, Value.stringer, renderScalar, invalidValues,
      show skipV2 "äx" = false from by decide]
  · simp [dumpRecursive1, dumpFields1, Value.stringer,
      show exportedStr "äx" = false from by decide]


/-- C3: for every known file-type tag the selector (in both variants)
invokes exactly the accessor the specification table assigns to it and no
other, returning that accessor's sub-structure; the table is injective on
the seventeen known tags, and every tag is either known or unknown, so the
dispatch is a flat one-to-one mapping with no precedence or fallback. -/
theorem c3_dispatch :
    (∀ (f : FitFile) (a : Accessor), tagAccessor f.ftype = some a →
        getFileValue f = ([a], f.accessor a) ∧
        getFileValue2 f = ([a], gfWrap (f.accessor a))) ∧
    (knownTags.map tagAccessor).Nodup ∧
    (∀ t : FileType, t ∈ knownTags ∨ ∃ c, t = FileType.unknown c) := by
  refine ⟨?_, by decide, ?_⟩
  · intro f a h
    cases hf : f.ftype <;> simp [tagAccessor, hf] at h <;>
      simp [getFileValue, getFileValue2, hf, ← h]
  · intro t
    cases t
    case unknown c => exact Or.inr ⟨c, rfl⟩
    all_goals exact Or.inl (by simp [knownTags])

/-- C3 witness: an activity-tagged file dispatches to the activity
accessor alone. -/
theorem c3_dispatch_witness :
    getFileValue activityFitFile = ([Accessor.activity], Except.ok sampleBody) ∧
    getFileValue2 activityFitFile = ([Accessor.activity], Except.ok sampleBody) := by
  have h := c3_dispatch.1 activityFitFile Accessor.activity rfl
  exact ⟨h.1, h.2⟩

/-- C4: for a decoded file whose tag is outside the seventeen known
categories, both variants of the selector invoke no accessor at all
(empty trace) and return the unknown-filetype error. -/
theorem c4_unknown :
    ∀ (f : FitFile) (code : Nat), f.ftype = FileType.unknown code →
      getFileValue f =
        ([], Except.error
          ("unknown filetype '" ++ fileTypeString (FileType.unknown code) ++ "'")) ∧
      getFileValue2 f =
        ([], Except.error
          ("get file failed: Unknown filetype '"
            ++ fileTypeString (FileType.unknown code) ++ "'")) := by
  intro f code h
  exact ⟨by simp [getFileValue, h], by simp [getFileValue2, h]⟩

/-- C4 witness at the sample unknown-tagged file. -/
theorem c4_unknown_witness :
    getFileValue unknownFitFile = ([], Except.error "unknown filetype 'FileType(7)'") ∧
    getFileValue2 unknownFitFile =
      ([], Except.error "get file failed: Unknown filetype 'FileType(7)'") := by
  have h := c4_unknown unknownFitFile 7 rfl
  have h1 : "unknown filetype '" ++ fileTypeString (FileType.unknown 7) ++ "'" =
      "unknown filetype 'FileType(7)'" := by decide
  have h2 : "get file failed: Unknown filetype '" ++ fileTypeString (FileType.unknown 7) ++ "'" =
      "get file failed: Unknown filetype 'FileType(7)'" := by decide
  rw [h1] at h
  rw [h2] at h
  exact h

/-- C8: in both variants the process exits 0 exactly when run() returns no
error; on any failure it exits 1 after printing the error message as the
last line of standard output (the model's only output channel -- the
program never writes to standard error); and a wrong argument count fails
with the arity error before os.Open is invoked (opened = false). -/
theorem c8_cli :
    (∀ env : Env, ((main1 env).1 = 0 ↔ (run1 env).err = none) ∧
        ((main2 env).1 = 0 ↔ (run2 env).err = none)) ∧
    (∀ (env : Env) (e : String), (run1 env).err = some e →
        main1 env = (1, (run1 env).output ++ [Line.rawL e])) ∧
    (∀ (env : Env) (e : String), (run2 env).err = some e →
        main2 env = (1, (run2 env).output ++ [Line.rawL e])) ∧
    (∀ env : Env, (run1 env).err = none → main1 env = (0, (run1 env).output)) ∧
    (∀ env : Env, (run2 env).err = none → main2 env = (0, (run2 env).output)) ∧
    (∀ env : Env, env.args.length ≠ 1 →
        run1 env = { opened := false, output := [],
                     err := some "Expected a single argument: FILE" } ∧
        run2 env = { opened := false, output := [],
                     err := some "Expected a single argument: FILE" }) := by
  refine ⟨?_, ?_, ?_, ?_, ?_, ?_⟩
  · intro env
    constructor
    · cases h : (run1 env).err <;> simp [main1, h]
    · cases h : (run2 env).err <;> simp [main2, h]
  · intro env e h; simp [main1, h]
  · intro env e h; simp [main2, h]
  · intro env h; simp [main1, h]
  · intro env h; simp [main2, h]
  · intro env h
    constructor <;> simp [run1, run2, h]

/-- C8 witness: with no positional arguments, both runs fail with the
arity error without opening a file, and main exits 1 with the message on
standard output. -/
theorem c8_cli_witness :
    run1 envNoArgs = { opened := false, output := [],
                       err := some "Expected a single argument: FILE" } ∧
    main1 envNoArgs = (1, [Line.rawL "Expected a single argument: FILE"]) := by
  have harity := c8_cli.2.2.2.2.2 envNoArgs (by simp [envNoArgs])
  have herr := c8_cli.2.1 envNoArgs "Expected a single argument: FILE" (by rw [harity.1])
  refine ⟨harity.1, ?_⟩
  rw [herr, harity.1]
  simp

/-- C9: when the arguments, open and decode all succeed but the selector
fails, the whole first-stage output remains on standard output: the final
output is exactly the first-stage dump followed by the error line.  In the
first variant the first stage is the dump of the reflected file under the
path name; in the second it is the seven top-level metadata dumps. -/
theorem c9_partial_output :
    ∀ (env : Env) (fitf : FitFile) (e : String),
      env.args.length = 1 → env.openRes = Except.ok () → env.decodeRes = Except.ok fitf →
      ((getFileValue fitf).2 = Except.error e →
         main1 env = (1, dumpRecursive1 fitf.topValue (env.args.headD "") 0
                          ++ [Line.rawL e])) ∧
      ((getFileValue2 fitf).2 = Except.error e →
         main2 env = (1, metadataDump2 fitf ++ [Line.rawL e])) := by
  intro env fitf e h1 h2 h3
  constructor
  · intro hg
    have hr : run1 env =
        { opened := true,
          output := dumpRecursive1 fitf.topValue (env.args.headD "") 0,
          err := some e } := by
      simp [run1, h1, h2, h3, hg]
    simp [main1, hr]
  · intro hg
    have hr : run2 env = { opened := true, output := metadataDump2 fitf, err := some e } := by
      simp [run2, h1, h2, h3, hg]
    simp [main2, hr]

/-- C9 witness: a decodable file with unknown type tag 7 leaves the
first-stage output on standard output, followed by the error line. -/
theorem c9_partial_output_witness :
    main1 envUnknown =
      (1, [Line.fieldL 0 "f.fit" (Rendered.strR "top"),
           Line.rawL "unknown filetype 'FileType(7)'"]) ∧
    main2 envUnknown =
      (1, [Line.rawL "get file failed: Unknown filetype 'FileType(7)'"]) := by
  have hs1 : "unknown filetype '" ++ fileTypeString (FileType.unknown 7) ++ "'" =
      "unknown filetype 'FileType(7)'" := by decide
  have hs2 : "get file failed: Unknown filetype '" ++ fileTypeString (FileType.unknown 7) ++ "'" =
      "get file failed: Unknown filetype 'FileType(7)'" := by decide
  have h1 := (c9_partial_output envUnknown unknownFitFile
      "unknown filetype 'FileType(7)'" rfl rfl rfl).1
    (by simp [getFileValue, unknownFitFile, hs1])
  have h2 := (c9_partial_output envUnknown unknownFitFile
      "get file failed: Unknown filetype 'FileType(7)'" rfl rfl rfl).2
    (by simp [getFileValue2, unknownFitFile, hs2])
  constructor
  · rw [h1]
    simp [unknownFitFile, envUnknown, dumpRecursive1, Value.stringer, dumpField,
      invalidValues, renderScalar]
  · rw [h2]
    simp [unknownFitFile, metadataDump2, mv, dumpRecursive2, Value.stringer, dumpField,
      invalidValues]

/-- C10: exported() never reaches its panic branch on a nonempty name
whose bytes are valid UTF-8 (it returns a boolean), and the panic branch
is reachable precisely when the name is empty or begins with an invalid
UTF-8 byte sequence. -/
theorem c10_exported_total :
    (∀ bs : List Nat, bs ≠ [] → validUtf8 bs = true → (exported bs).isSome = true) ∧
    (∀ bs : List Nat, exported bs = none ↔ (bs = [] ∨ validFirstRune bs = false)) := by
  constructor
  · intro bs hne hv
    cases he : exported bs with
    | some b => rfl
    | none =>
      rcases (exported_none_iff bs).mp he with h | h
      · exact absurd h hne
      · rw [validUtf8_first bs hne hv] at h
        cases h
  · exact exported_none_iff

/-- C10 witness: a well-formed name decodes without panic, and a lone
UTF-8 lead byte is a panic input characterized by the iff. -/
theorem c10_exported_total_witness :
    (exported (strBytes "Az")).isSome = true ∧
    (exported [0xC3] = none ↔ ([0xC3] = ([] : List Nat) ∨ validFirstRune [0xC3] = false)) :=
  ⟨c10_exported_total.1 (strBytes "Az") (by decide)
     (by simp [validUtf8, validFirstRune, runeLen, strBytes, utf8Encode]),
   c10_exported_total.2 [0xC3]⟩

end FitDump
